import Mathlib

/-!
Shallow embedding of `app/__main__.py` of the nft-private-tg-bot repository.

The file under scrutiny is the process lifecycle orchestrator: `on_startup`,
`on_shutdown` and `main`.  Both lifecycle handlers are straight-line sequences
of effectful calls, so we embed each handler as the list of effect events it
performs, in source order, and execute that list with `runSeq`, which models
Python exception semantics faithfully: an event whose call raises aborts the
remaining events (neither handler contains a try/except block, so there is no
per-step suppression anywhere in the source).

The environment `Env` packages the facts the handlers observe from the outside
world: the admin-id set currently stored in the database, whether the bot /
tonapi clients hold a session (the truthiness tests on lines 89 and 93), and a
failure-injection oracle saying which calls raise.
-/

namespace App

/-- The attribute names that `main` constructs handles for and that
`on_startup` may stash on the ambient event loop via `loop.__setattr__`. -/
inductive LoopAttr where
  | dispatcher
  | bot
  | config
  | tonapi
  | sessionmaker
  | engine
  | redis
  | scheduler
  | storage
  deriving DecidableEq, Repr

/-- One observable effect performed by `on_startup` or `on_shutdown`.
Each constructor corresponds to one call in the Python source:
`loop.__setattr__(a, ...)`, `Base.metadata.create_all` (inside
`engine.begin()`), `bot_middlewares_register`, `bot_routers_include`,
`scheduler.run()`, `AdminDB.get_all_ids`, `bot_commands_setup`,
`bot_admin_commands_setup(ids)`, `bot_commands_delete`,
`bot_admin_commands_delete(ids)`, `bot.delete_webhook()`,
`bot.session.close()`, `tonapi.session.close()`, `engine.dispose()`,
`scheduler.shutdown()`. -/
inductive Ev where
  | setLoopAttr (a : LoopAttr)
  | createAll
  | middlewaresRegister
  | routersInclude
  | schedulerRun
  | getAllAdminIds
  | commandsSetup
  | adminCommandsSetup (ids : List Int)
  | commandsDelete
  | adminCommandsDelete (ids : List Int)
  | deleteWebhook
  | botSessionClose
  | tonapiSessionClose
  | engineDispose
  | schedulerShutdown
  deriving DecidableEq, Repr

/-- The world a lifecycle handler runs against: the admin-id set the database
currently holds, whether each client object holds a network session, and a
failure-injection oracle telling which calls raise an exception. -/
structure Env where
  adminIds : List Int
  botHasSession : Bool
  tonapiHasSession : Bool
  raises : Ev → Bool

/-- Execute a straight-line sequence of calls under Python exception
semantics: each event is performed in order; if its call raises, execution
stops there (no handler in the source catches anything).  Returns the list of
events actually performed and `true` iff the sequence ran to completion. -/
def runSeq (raises : Ev → Bool) : List Ev → List Ev × Bool
  | [] => ([], true)
  | e :: rest =>
      if raises e then ([e], false)
      else
        let r := runSeq raises rest
        (e :: r.1, r.2)

/-- The calls `on_startup` performs, in source order (lines 30–65):
five `loop.__setattr__` calls, then schema creation, then middleware
registration, router inclusion, scheduler activation, the admin-id fetch,
default-menu publication, and admin-menu publication with the fetched ids. -/
def onStartupEvents (env : Env) : List Ev :=
  [Ev.setLoopAttr LoopAttr.dispatcher,
   Ev.setLoopAttr LoopAttr.bot,
   Ev.setLoopAttr LoopAttr.config,
   Ev.setLoopAttr LoopAttr.tonapi,
   Ev.setLoopAttr LoopAttr.sessionmaker,
   Ev.createAll,
   Ev.middlewaresRegister,
   Ev.routersInclude,
   Ev.schedulerRun,
   Ev.getAllAdminIds,
   Ev.commandsSetup,
   Ev.adminCommandsSetup env.adminIds]

/-- `on_startup` executed against `env`. -/
def on_startup (env : Env) : List Ev × Bool :=
  runSeq env.raises (onStartupEvents env)

/-- The calls `on_shutdown` performs, in source order (lines 68–100):
fetch the admin ids, delete the default command menu, delete the admin
command menu with the freshly fetched ids, delete the webhook, close the bot
session if present, close the tonapi session if present, dispose the engine,
shut down the scheduler. -/
def onShutdownEvents (env : Env) : List Ev :=
  [Ev.getAllAdminIds,
   Ev.commandsDelete,
   Ev.adminCommandsDelete env.adminIds,
   Ev.deleteWebhook]
  ++ (if env.botHasSession then [Ev.botSessionClose] else [])
  ++ (if env.tonapiHasSession then [Ev.tonapiSessionClose] else [])
  ++ [Ev.engineDispose, Ev.schedulerShutdown]

/-- `on_shutdown` executed against `env`. -/
def on_shutdown (env : Env) : List Ev × Bool :=
  runSeq env.raises (onShutdownEvents env)

/-- Projects the attribute name out of a `setLoopAttr` event. -/
def loopAttrOf : Ev → Option LoopAttr
  | Ev.setLoopAttr a => some a
  | _ => none

/-- The subsystem handles constructed in `main` (lines 103–152), plus the
dispatcher and the session factory which `main` also constructs. -/
inductive Handle where
  | engine
  | storage
  | tonapi
  | bot
  | scheduler
  | sessionmaker
  | dispatcher
  deriving DecidableEq, Repr

/-- An input to a handle constructor: either the configuration value (or a
field derived from it) or a previously constructed handle. -/
inductive CtorInput where
  | config
  | handle (h : Handle)
  deriving DecidableEq, Repr

/-- The inputs each constructor call in `main` receives, read off the source:
`Scheduler(config=config)`, `AsyncTonapi(config.tonapi.KEY, ...)`,
`create_async_engine(config.database.dsn(), ...)`,
`async_sessionmaker(bind=engine, ...)`,
`RedisStorage.from_url(config.redis.dsn())`, `Bot(token=config.bot.TOKEN,
...)`, and `Dispatcher(bot=bot, storage=storage, config=config,
redis=storage.redis, engine=engine, sessionmaker=sessionmaker,
scheduler=scheduler, tonapi=tonapi)`. -/
def ctorInputs : Handle → List CtorInput
  | Handle.scheduler => [CtorInput.config]
  | Handle.tonapi => [CtorInput.config]
  | Handle.engine => [CtorInput.config]
  | Handle.sessionmaker => [CtorInput.handle Handle.engine]
  | Handle.storage => [CtorInput.config]
  | Handle.bot => [CtorInput.config]
  | Handle.dispatcher =>
      [CtorInput.handle Handle.bot,
       CtorInput.handle Handle.storage,
       CtorInput.config,
       CtorInput.handle Handle.storage,
       CtorInput.handle Handle.engine,
       CtorInput.handle Handle.sessionmaker,
       CtorInput.handle Handle.scheduler,
       CtorInput.handle Handle.tonapi]

/-- The five subsystem handles named by the Resource Factory contract:
database engine, cache/session-store connection, external API client,
message-transport client, job scheduler. -/
def subsystemHandles : List Handle :=
  [Handle.engine, Handle.storage, Handle.tonapi, Handle.bot, Handle.scheduler]

/-- One top-level action of `main` (lines 103–162), in source order. -/
inductive MainStep where
  | loadConfig
  | mkScheduler
  | mkTonapi
  | mkEngine
  | mkSessionmaker
  | mkStorage
  | mkBot
  | mkDispatcher
  | registerStartupHandler
  | registerShutdownHandler
  | deleteWebhook
  | startPolling
  deriving DecidableEq, Repr

/-- The actions `main` performs, in source order. -/
def mainSteps : List MainStep :=
  [MainStep.loadConfig,
   MainStep.mkScheduler,
   MainStep.mkTonapi,
   MainStep.mkEngine,
   MainStep.mkSessionmaker,
   MainStep.mkStorage,
   MainStep.mkBot,
   MainStep.mkDispatcher,
   MainStep.registerStartupHandler,
   MainStep.registerShutdownHandler,
   MainStep.deleteWebhook,
   MainStep.startPolling]

/-- Environment used for concrete runs: admin ids `[42, 7]`, both clients
hold sessions, nothing raises. -/
def envNoFail : Env := ⟨[42, 7], true, true, fun _ => false⟩

/-- Environment with no open sessions and nothing raising. -/
def envNoSess : Env := ⟨[42, 7], false, false, fun _ => false⟩

/-- Environment where exactly the schema-creation call raises. -/
def envFailSchema : Env := ⟨[5], true, true, fun e => decide (e = Ev.createAll)⟩

/-- Environment where exactly the admin-id fetch raises. -/
def envFailFetch : Env :=
  ⟨[42], true, true, fun e => decide (e = Ev.getAllAdminIds)⟩

theorem runSeq_ok (raises : Ev → Bool) (l : List Ev)
    (h : ∀ e ∈ l, raises e = false) : runSeq raises l = (l, true) := by
  induction l with
  | nil => rfl
  | cons e rest ih =>
      have he : raises e = false := h e (List.mem_cons_self e rest)
      have hrest : runSeq raises rest = (rest, true) :=
        ih fun x hx => h x (List.mem_cons_of_mem e hx)
      simp [runSeq, he, hrest]

theorem runSeq_fail (raises : Ev → Bool) (l : List Ev) (k : Nat)
    (hk : k < l.length)
    (hb : ∀ e ∈ l.take k, raises e = false)
    (hf : raises (l.get ⟨k, hk⟩) = true) :
    runSeq raises l = (l.take (k + 1), false) := by
  induction l generalizing k with
  | nil => exact absurd hk (by simp)
  | cons e rest ih =>
      cases k with
      | zero =>
          have he : raises e = true := hf
          simp [runSeq, he]
      | succ m =>
          have he : raises e = false := hb e (by simp)
          have hm : m < rest.length := Nat.lt_of_succ_lt_succ hk
          have hb' : ∀ x ∈ rest.take m, raises x = false := by
            intro x hx
            exact hb x (by simp [hx])
          have hf' : raises (rest.get ⟨m, hm⟩) = true := hf
          have hrest := ih m hm hb' hf'
          simp [runSeq, he, hrest]

theorem runSeq_mem (raises : Ev → Bool) (l : List Ev) (e : Ev)
    (h : e ∈ (runSeq raises l).1) : e ∈ l := by
  induction l with
  | nil => simp [runSeq] at h
  | cons a rest ih =>
      by_cases ha : raises a = true
      · simp [runSeq, ha] at h
        simp [h]
      · simp [runSeq, ha] at h
        rcases h with h | h
        · simp [h]
        · exact List.mem_cons_of_mem a (ih h)

theorem get_take_not_mem {α : Type} (l : List α) (hnd : l.Nodup)
    (n j : Nat) (hj : j < l.length) (hnj : n ≤ j) :
    l.get ⟨j, hj⟩ ∉ l.take n := by
  induction l generalizing n j with
  | nil => simp at hj
  | cons a rest ih =>
      rw [List.nodup_cons] at hnd
      obtain ⟨ha, hrest⟩ := hnd
      cases n with
      | zero => simp
      | succ m =>
          cases j with
          | zero => exact absurd hnj (by omega)
          | succ i =>
              have hi : i < rest.length := Nat.lt_of_succ_lt_succ hj
              intro hmem
              rw [List.take_succ_cons] at hmem
              rcases List.mem_cons.mp hmem with h1 | h2
              · have : rest.get ⟨i, hi⟩ = a := h1
                exact ha (this ▸ List.get_mem rest i hi)
              · exact ih hrest m i hi (Nat.le_of_succ_le_succ hnj) h2

theorem onStartupEvents_nodup (env : Env) : (onStartupEvents env).Nodup := by
  simp [onStartupEvents]

/-- Claim C1 (corrected): the shutdown sequence is NOT best-effort.  The
source's `on_shutdown` contains no try/except: when the very first teardown
step (the admin-id fetch) raises, the later steps — webhook deletion, session
closes, engine disposal, scheduler shutdown — do not execute, contradicting
the claim that every step's exception is caught and all later steps still
run. -/
theorem onShutdown_not_best_effort_cex :
    (on_shutdown envFailFetch).1 = [Ev.getAllAdminIds] ∧
    Ev.deleteWebhook ∉ (on_shutdown envFailFetch).1 ∧
    Ev.engineDispose ∉ (on_shutdown envFailFetch).1 ∧
    Ev.schedulerShutdown ∉ (on_shutdown envFailFetch).1 ∧
    (on_shutdown envFailFetch).2 = false := by
  decide

/-- Claim C1 (amended): the shutdown steps run strictly in sequence with no
per-step exception handling.  When no step raises, all teardown steps execute
in order and the handler completes; when the first raising step is the one at
index `k`, exactly the first `k + 1` steps execute and the handler aborts. -/
theorem onShutdown_fail_fast (env : Env) :
    ((∀ e ∈ onShutdownEvents env, env.raises e = false) →
      on_shutdown env = (onShutdownEvents env, true)) ∧
    (∀ k, ∀ hk : k < (onShutdownEvents env).length,
      (∀ e ∈ (onShutdownEvents env).take k, env.raises e = false) →
      env.raises ((onShutdownEvents env).get ⟨k, hk⟩) = true →
      on_shutdown env = ((onShutdownEvents env).take (k + 1), false)) := by
  constructor
  · intro hf
    exact runSeq_ok env.raises (onShutdownEvents env) hf
  · intro k hk hb hfk
    exact runSeq_fail env.raises (onShutdownEvents env) k hk hb hfk

/-- Witness for C1's amended theorem at two concrete environments: one where
nothing raises and the whole sequence completes, one where the admin-id fetch
raises and only that step executes. -/
theorem onShutdown_fail_fast_witness :
    on_shutdown envNoFail = (onShutdownEvents envNoFail, true) ∧
    on_shutdown envFailFetch = ((onShutdownEvents envFailFetch).take 1, false) :=
  ⟨(onShutdown_fail_fast envNoFail).1 (fun _ _ => rfl),
   (onShutdown_fail_fast envFailFetch).2 0 (by decide) (by decide) (by decide)⟩

/-- Claim C2 (corrected): schema creation does NOT complete before the
handles are published into the shared context.  In a concrete no-failure run,
the first `loop.__setattr__` call (publishing the dispatcher) occurs at an
earlier trace position than `Base.metadata.create_all`. -/
theorem onStartup_schema_not_first_cex :
    Ev.createAll ∈ (on_startup envNoFail).1 ∧
    Ev.setLoopAttr LoopAttr.dispatcher ∈ (on_startup envNoFail).1 ∧
    (on_startup envNoFail).1.indexOf (Ev.setLoopAttr LoopAttr.dispatcher) <
      (on_startup envNoFail).1.indexOf Ev.createAll := by
  decide

/-- Claim C2 (amended): in every startup run in which no step raises, the
steps execute in exactly this order: publish the five ServiceContext handles
into the shared context, then ensure the database schema exists, then
register interceptors, then routers, then activate the scheduler, then fetch
the admin identity set, then publish the default menu, then publish the admin
menu; in particular handle publication completes before schema creation. -/
theorem onStartup_order (env : Env)
    (hf : ∀ e ∈ onStartupEvents env, env.raises e = false) :
    (on_startup env).1 =
      [Ev.setLoopAttr LoopAttr.dispatcher,
       Ev.setLoopAttr LoopAttr.bot,
       Ev.setLoopAttr LoopAttr.config,
       Ev.setLoopAttr LoopAttr.tonapi,
       Ev.setLoopAttr LoopAttr.sessionmaker,
       Ev.createAll,
       Ev.middlewaresRegister,
       Ev.routersInclude,
       Ev.schedulerRun,
       Ev.getAllAdminIds,
       Ev.commandsSetup,
       Ev.adminCommandsSetup env.adminIds] ∧
    (on_startup env).2 = true := by
  have h := runSeq_ok env.raises (onStartupEvents env) hf
  constructor
  · exact congrArg Prod.fst h
  · exact congrArg Prod.snd h

/-- Witness for C2's amended theorem at a concrete no-failure environment. -/
theorem onStartup_order_witness :
    (on_startup envNoFail).1 =
      [Ev.setLoopAttr LoopAttr.dispatcher,
       Ev.setLoopAttr LoopAttr.bot,
       Ev.setLoopAttr LoopAttr.config,
       Ev.setLoopAttr LoopAttr.tonapi,
       Ev.setLoopAttr LoopAttr.sessionmaker,
       Ev.createAll,
       Ev.middlewaresRegister,
       Ev.routersInclude,
       Ev.schedulerRun,
       Ev.getAllAdminIds,
       Ev.commandsSetup,
       Ev.adminCommandsSetup [42, 7]] ∧
    (on_startup envNoFail).2 = true :=
  onStartup_order envNoFail (fun _ _ => rfl)

/-- Claim C3 (corrected): the retraction order is the opposite of the
claimed one.  In a concrete no-failure shutdown run the default-menu
retraction occupies an earlier trace position than the admin-menu
retraction. -/
theorem onShutdown_retraction_order_cex :
    Ev.commandsDelete ∈ (on_shutdown envNoFail).1 ∧
    Ev.adminCommandsDelete [42, 7] ∈ (on_shutdown envNoFail).1 ∧
    (on_shutdown envNoFail).1.indexOf Ev.commandsDelete <
      (on_shutdown envNoFail).1.indexOf (Ev.adminCommandsDelete [42, 7]) := by
  decide

/-- Claim C3 (amended): in every shutdown run in which no step raises, the
first three executed steps are, in order: the admin-id fetch, the
default-menu retraction, and the admin-menu retraction — so the default menu
is retracted strictly before the admin menu, not after it. -/
theorem onShutdown_menu_retraction_order (env : Env)
    (hf : ∀ e ∈ onShutdownEvents env, env.raises e = false) :
    (on_shutdown env).1.take 3 =
      [Ev.getAllAdminIds, Ev.commandsDelete,
       Ev.adminCommandsDelete env.adminIds] := by
  have h : (on_shutdown env).1 = onShutdownEvents env :=
    congrArg Prod.fst (runSeq_ok env.raises (onShutdownEvents env) hf)
  rw [h]
  rfl

/-- Witness for C3's amended theorem at a concrete no-failure environment. -/
theorem onShutdown_menu_retraction_order_witness :
    (on_shutdown envNoFail).1.take 3 =
      [Ev.getAllAdminIds, Ev.commandsDelete, Ev.adminCommandsDelete [42, 7]] :=
  onShutdown_menu_retraction_order envNoFail (fun _ _ => rfl)

/-- Claim C4 (confirmed): `on_startup` contains no exception handling, so if
the step at index `k` is the first to raise, exactly the steps up to and
including it execute, the handler aborts (`false` — the machine does not
reach Running), and no later step appears in the executed trace. -/
theorem onStartup_fail_fast (env : Env) (k : Nat)
    (hk : k < (onStartupEvents env).length)
    (hb : ∀ e ∈ (onStartupEvents env).take k, env.raises e = false)
    (hfk : env.raises ((onStartupEvents env).get ⟨k, hk⟩) = true) :
    on_startup env = ((onStartupEvents env).take (k + 1), false) ∧
    (on_startup env).2 = false ∧
    ∀ j, ∀ hj : j < (onStartupEvents env).length, k + 1 ≤ j →
      (onStartupEvents env).get ⟨j, hj⟩ ∉ (on_startup env).1 := by
  have h : on_startup env = ((onStartupEvents env).take (k + 1), false) :=
    runSeq_fail env.raises (onStartupEvents env) k hk hb hfk
  refine ⟨h, congrArg Prod.snd h, ?_⟩
  intro j hj hkj
  have h1 : (on_startup env).1 = (onStartupEvents env).take (k + 1) :=
    congrArg Prod.fst h
  rw [h1]
  exact get_take_not_mem (onStartupEvents env) (onStartupEvents_nodup env)
    (k + 1) j hj hkj

/-- Witness for C4 at a concrete environment where exactly the
schema-creation step (index 5) raises: only the first six steps execute and
the handler aborts. -/
theorem onStartup_fail_fast_witness :
    on_startup envFailSchema = ((onStartupEvents envFailSchema).take 6, false) :=
  (onStartup_fail_fast envFailSchema 5 (by decide) (by decide) (by decide)).1

/-- Claim C5 (confirmed): every admin-menu retraction event in any shutdown
trace carries exactly the admin-id set read from the database during that
shutdown run; a set differing from the shutdown-time one (e.g. a stale
startup-time set) is never passed; and in a run where nothing raises the
retraction with the fresh set does occur. -/
theorem onShutdown_admin_menu_fresh_ids (env : Env) :
    (∀ ids, Ev.adminCommandsDelete ids ∈ (on_shutdown env).1 →
      ids = env.adminIds) ∧
    (∀ staleIds, staleIds ≠ env.adminIds →
      Ev.adminCommandsDelete staleIds ∉ (on_shutdown env).1) ∧
    ((∀ e ∈ onShutdownEvents env, env.raises e = false) →
      Ev.adminCommandsDelete env.adminIds ∈ (on_shutdown env).1) := by
  have key : ∀ ids, Ev.adminCommandsDelete ids ∈ (on_shutdown env).1 →
      ids = env.adminIds := by
    intro ids hm
    have h2 : Ev.adminCommandsDelete ids ∈ onShutdownEvents env :=
      runSeq_mem env.raises (onShutdownEvents env) _ hm
    rcases env with ⟨ids0, b1, b2, r⟩
    cases b1 <;> cases b2 <;> simp [onShutdownEvents] at h2 <;> exact h2
  refine ⟨key, ?_, ?_⟩
  · intro staleIds hne hm
    exact hne (key staleIds hm)
  · intro hf
    have h1 : (on_shutdown env).1 = onShutdownEvents env :=
      congrArg Prod.fst (runSeq_ok env.raises (onShutdownEvents env) hf)
    rw [h1]
    simp [onShutdownEvents]

/-- Witness for C5: with the database holding `[42, 7]` at shutdown, the
retraction is invoked with `[42, 7]` and never with the stale set `[42]`. -/
theorem onShutdown_admin_menu_fresh_ids_witness :
    Ev.adminCommandsDelete [42, 7] ∈ (on_shutdown envNoFail).1 ∧
    Ev.adminCommandsDelete [42] ∉ (on_shutdown envNoFail).1 :=
  ⟨(onShutdown_admin_menu_fresh_ids envNoFail).2.2 (fun _ _ => rfl),
   (onShutdown_admin_menu_fresh_ids envNoFail).2.1 [42] (by decide)⟩

/-- Claim C6 (confirmed): in a shutdown run where no step raises, the bot
session close is executed iff the bot holds a session, likewise for the
tonapi session; engine disposal and scheduler shutdown always execute; and
the handler completes. -/
theorem onShutdown_session_close_conditional (env : Env)
    (hf : ∀ e ∈ onShutdownEvents env, env.raises e = false) :
    (Ev.botSessionClose ∈ (on_shutdown env).1 ↔ env.botHasSession = true) ∧
    (Ev.tonapiSessionClose ∈ (on_shutdown env).1 ↔
      env.tonapiHasSession = true) ∧
    Ev.engineDispose ∈ (on_shutdown env).1 ∧
    Ev.schedulerShutdown ∈ (on_shutdown env).1 ∧
    (on_shutdown env).2 = true := by
  have h := runSeq_ok env.raises (onShutdownEvents env) hf
  have h1 : (on_shutdown env).1 = onShutdownEvents env := congrArg Prod.fst h
  have h2 : (on_shutdown env).2 = true := congrArg Prod.snd h
  rw [h1, h2]
  rcases env with ⟨ids0, b1, b2, r⟩
  cases b1 <;> cases b2 <;> simp [onShutdownEvents]

/-- Witness for C6 at a concrete environment where neither client holds a
session: both close steps are skipped but disposal and scheduler shutdown
still execute and the handler completes. -/
theorem onShutdown_session_close_conditional_witness :
    Ev.botSessionClose ∉ (on_shutdown envNoSess).1 ∧
    Ev.tonapiSessionClose ∉ (on_shutdown envNoSess).1 ∧
    Ev.engineDispose ∈ (on_shutdown envNoSess).1 ∧
    Ev.schedulerShutdown ∈ (on_shutdown envNoSess).1 ∧
    (on_shutdown envNoSess).2 = true := by
  have h := onShutdown_session_close_conditional envNoSess (fun _ _ => rfl)
  exact ⟨fun hm => absurd (h.1.mp hm) (by decide),
         fun hm => absurd (h.2.1.mp hm) (by decide),
         h.2.2.1, h.2.2.2.1, h.2.2.2.2⟩

/-- Claim C7 (confirmed): in a shutdown run where no step raises, scheduler
shutdown is the last executed step: the trace splits as a front segment
followed by exactly the scheduler-shutdown event, the front contains the
engine disposal, and it contains each session close that was performed. -/
theorem onShutdown_scheduler_last (env : Env)
    (hf : ∀ e ∈ onShutdownEvents env, env.raises e = false) :
    (on_shutdown env).1 =
      (on_shutdown env).1.dropLast ++ [Ev.schedulerShutdown] ∧
    Ev.schedulerShutdown ∉ (on_shutdown env).1.dropLast ∧
    Ev.engineDispose ∈ (on_shutdown env).1.dropLast ∧
    (env.botHasSession = true →
      Ev.botSessionClose ∈ (on_shutdown env).1.dropLast) ∧
    (env.tonapiHasSession = true →
      Ev.tonapiSessionClose ∈ (on_shutdown env).1.dropLast) := by
  have h1 : (on_shutdown env).1 = onShutdownEvents env :=
    congrArg Prod.fst (runSeq_ok env.raises (onShutdownEvents env) hf)
  rw [h1]
  rcases env with ⟨ids0, b1, b2, r⟩
  cases b1 <;> cases b2 <;> simp [onShutdownEvents]

/-- Witness for C7 at a concrete no-failure environment with both sessions
open. -/
theorem onShutdown_scheduler_last_witness :
    (on_shutdown envNoFail).1 =
      (on_shutdown envNoFail).1.dropLast ++ [Ev.schedulerShutdown] ∧
    Ev.schedulerShutdown ∉ (on_shutdown envNoFail).1.dropLast ∧
    Ev.engineDispose ∈ (on_shutdown envNoFail).1.dropLast ∧
    Ev.botSessionClose ∈ (on_shutdown envNoFail).1.dropLast ∧
    Ev.tonapiSessionClose ∈ (on_shutdown envNoFail).1.dropLast := by
  have h := onShutdown_scheduler_last envNoFail (fun _ _ => rfl)
  exact ⟨h.1, h.2.1, h.2.2.1, h.2.2.2.1 rfl, h.2.2.2.2 rfl⟩

/-- Claim C8 (confirmed): each of the five subsystem handles (engine,
storage, tonapi, bot, scheduler) is constructed in `main` from the
configuration value alone — no previously constructed handle appears among
its constructor inputs.  (The session factory and the dispatcher, which do
receive handles, are not among the five subsystem handles.) -/
theorem resource_factory_config_only :
    ∀ h ∈ subsystemHandles, ctorInputs h = [CtorInput.config] := by
  decide

/-- Witness for C8 at the database-engine handle. -/
theorem resource_factory_config_only_witness :
    ctorInputs Handle.engine = [CtorInput.config] :=
  resource_factory_config_only Handle.engine (by decide)

/-- Claim C9 (confirmed): `main` invokes the remote-webhook deletion exactly
once, strictly before it starts the polling loop (which is its final
action). -/
theorem main_deletes_webhook_before_polling :
    mainSteps.count MainStep.deleteWebhook = 1 ∧
    mainSteps.indexOf MainStep.deleteWebhook <
      mainSteps.indexOf MainStep.startPolling ∧
    mainSteps.getLast? = some MainStep.startPolling := by
  decide

/-- Claim C10 (confirmed): in a startup run where no step raises, the
attributes published onto the ambient event loop are exactly, in order:
dispatcher, bot, config, tonapi, sessionmaker — and the engine, redis,
scheduler and storage handles are never published there. -/
theorem onStartup_loop_attrs (env : Env)
    (hf : ∀ e ∈ onStartupEvents env, env.raises e = false) :
    (on_startup env).1.filterMap loopAttrOf =
      [LoopAttr.dispatcher, LoopAttr.bot, LoopAttr.config, LoopAttr.tonapi,
       LoopAttr.sessionmaker] ∧
    Ev.setLoopAttr LoopAttr.engine ∉ (on_startup env).1 ∧
    Ev.setLoopAttr LoopAttr.redis ∉ (on_startup env).1 ∧
    Ev.setLoopAttr LoopAttr.scheduler ∉ (on_startup env).1 ∧
    Ev.setLoopAttr LoopAttr.storage ∉ (on_startup env).1 := by
  have h1 : (on_startup env).1 = onStartupEvents env :=
    congrArg Prod.fst (runSeq_ok env.raises (onStartupEvents env) hf)
  rw [h1]
  simp [onStartupEvents, loopAttrOf]

/-- Witness for C10 at a concrete no-failure environment. -/
theorem onStartup_loop_attrs_witness :
    (on_startup envNoFail).1.filterMap loopAttrOf =
      [LoopAttr.dispatcher, LoopAttr.bot, LoopAttr.config, LoopAttr.tonapi,
       LoopAttr.sessionmaker] :=
  (onStartup_loop_attrs envNoFail (fun _ _ => rfl)).1

end App
